import Mathlib

/-!
Verification of the Tapsyncpro attendance application.

The repository ships one visible source file, api/index.py: Flask
application setup, environment-driven configuration, blueprint
registration and a static-file catch-all route.  Those parts are
embedded directly from the source below.

The attendance-recording core (the Attendance Recorder, Student
Directory and Persistence Store of the design document) lives in
modules the visible file imports but whose code is not part of the
snapshot, so the Recorder is modelled from the specification text and
the claims about it are settled against that model.
-/

/-! ## Data model (modelled from the spec) -/

/-- Modelled from the spec: a student record as held by the Student
Directory, with unique id, display name and enrollment status
(active or inactive).  The code of the Student Directory is not in
the snapshot. -/
structure Student where
  id : Nat
  name : String
  active : Bool
deriving DecidableEq, Repr

/-- Modelled from the spec: an immutable attendance fact with a
generated event id, the student id it references, the opaque session
identifier, the scan timestamp and the source tag identifier.  The
code of the AttendanceEvent model is not in the snapshot. -/
structure AttendanceEvent where
  eventId : Nat
  studentId : Nat
  sessionId : String
  observedAt : Nat
  tagId : String
deriving DecidableEq, Repr

/-- Modelled from the spec: the Student Directory interface
find_student_by_tag, read-only from the Recorder viewpoint. -/
abbrev Directory : Type := String → Option Student

/-- Modelled from the spec: the Persistence Store state, a durable
collection of attendance events queried by (student id, session id). -/
abbrev Store : Type := List AttendanceEvent

/-- Modelled from the spec: the error the store raises when the
uniqueness invariant on (student id, session id) is violated at
insert time. -/
inductive StoreError where
  | duplicateKey
deriving DecidableEq, Repr

/-- Modelled from the spec: the outcome taxonomy of record_scan.
Recorded carries the new event; AlreadyRecorded carries the prior
event timestamp; UnknownTag and InvalidSession are the permanent
rejections. -/
inductive Outcome where
  | Recorded (ev : AttendanceEvent)
  | AlreadyRecorded (priorTimestamp : Nat)
  | UnknownTag
  | InvalidSession
deriving DecidableEq, Repr

/-- True exactly on the error-shaped outcomes of the taxonomy:
UnknownTag and InvalidSession.  Recorded and AlreadyRecorded are
success-shaped. -/
def isErrorOutcome : Outcome → Bool
  | Outcome.UnknownTag => true
  | Outcome.InvalidSession => true
  | _ => false

/-- Whether an event belongs to the given (student id, session id)
pair. -/
def eventMatches (sid : Nat) (sess : String) (e : AttendanceEvent) : Bool :=
  e.studentId == sid && e.sessionId == sess

/-- Modelled from the spec: the Persistence Store query interface
find_event, returning an existing AttendanceEvent for the pair when
one is stored. -/
def find_event (store : Store) (sid : Nat) (sess : String) : Option AttendanceEvent :=
  List.find? (eventMatches sid sess) store

/-- Number of stored events for a (student id, session id) pair. -/
def countEvents (store : Store) (sid : Nat) (sess : String) : Nat :=
  (List.filter (eventMatches sid sess) store).length

/-- Modelled from the spec: the Persistence Store insert interface
insert_event, which fails with DuplicateKey when an event for the
same (student id, session id) already exists, and otherwise appends
the new event.  On success it returns the stored event together with
the new store state. -/
def insert_event (store : Store) (ev : AttendanceEvent) :
    Except StoreError (AttendanceEvent × Store) :=
  match find_event store ev.studentId ev.sessionId with
  | some _ => Except.error StoreError.duplicateKey
  | none => Except.ok (ev, store ++ [ev])

/-- Modelled from the spec: step 3 of the Recorder policy.  Attempt
the atomic insert; on a DuplicateKey uniqueness violation, convert it
to the AlreadyRecorded outcome carrying the prior event timestamp
instead of surfacing the storage error. -/
def attempt_insert (store : Store) (ev : AttendanceEvent) : Outcome × Store :=
  match insert_event store ev with
  | Except.ok inserted => (Outcome.Recorded inserted.1, inserted.2)
  | Except.error StoreError.duplicateKey =>
    match find_event store ev.studentId ev.sessionId with
    | some prior => (Outcome.AlreadyRecorded prior.observedAt, store)
    | none => (Outcome.AlreadyRecorded ev.observedAt, store)

/-- Modelled from the spec: the Attendance Recorder contract
record_scan(tag_id, session_id, observed_at).  Policy: resolve the
tag via the Student Directory (UnknownTag when unmapped or the owner
is inactive), reject an empty session id with InvalidSession, return
AlreadyRecorded with the prior timestamp when an event for the
(student id, session id) pair already exists, otherwise construct a
new event and insert it atomically.  The fresh event id is supplied
by the caller as fresh_id.  The code of the Recorder is not in the
snapshot. -/
def record_scan (dir : Directory) (store : Store) (tag_id session_id : String)
    (observed_at : Nat) (fresh_id : Nat) : Outcome × Store :=
  match dir tag_id with
  | none => (Outcome.UnknownTag, store)
  | some st =>
    if st.active = false then (Outcome.UnknownTag, store)
    else if session_id = "" then (Outcome.InvalidSession, store)
    else
      match find_event store st.id session_id with
      | some prior => (Outcome.AlreadyRecorded prior.observedAt, store)
      | none =>
        attempt_insert store
          (AttendanceEvent.mk fresh_id st.id session_id observed_at tag_id)

/-! ## Embedding of api/index.py (the visible source file) -/

/-- One blueprint registration of api/index.py: the blueprint name
and the URL mount point passed to app.register_blueprint. -/
structure BlueprintRegistration where
  blueprint : String
  mountPoint : String
deriving DecidableEq, Repr

/-- The four app.register_blueprint calls of api/index.py, in
program order. -/
def registered_blueprints : List BlueprintRegistration :=
  [BlueprintRegistration.mk "students_bp" "/api/students",
   BlueprintRegistration.mk "nfc_bp" "/api/nfc",
   BlueprintRegistration.mk "attendance_bp" "/api/attendance",
   BlueprintRegistration.mk "faculty_bp" "/api/faculty"]

/-- The serve_static catch-all handler of api/index.py: try to send
the named file from the static bundle; on any exception, send
index.html instead.  The sending primitive send_from_directory is
abstracted as a function from file name to a fallible response, with
the static directory fixed. -/
def serve_static (ε : Type) (send : String → Except ε String) (path : String) :
    Except ε String :=
  match send path with
  | Except.ok resp => Except.ok resp
  | Except.error _ => send "index.html"

/-- The os.getenv(key, default) lookup of api/index.py: the value of
the environment variable when set, the default otherwise. -/
def getenv (environ : String → Option String) (key dflt : String) : String :=
  (environ key).getD dflt

/-- The SECRET_KEY configuration line of api/index.py. -/
def secret_key_config (environ : String → Option String) : String :=
  getenv environ "SECRET_KEY" "dev-secret-key-change-in-production"

/-- The SQLALCHEMY_DATABASE_URI configuration line of api/index.py. -/
def database_uri_config (environ : String → Option String) : String :=
  getenv environ "DATABASE_URL" "sqlite:///nfc_attendance.db"

/-! ## Interleaving model of concurrent record_scan calls

Modelled from the spec: each concurrent caller of record_scan for the
same (student id, session id) pair performs the duplicate check and
the atomic insert as two separate steps, so another caller may insert
between them; the store-enforced uniqueness constraint plus the
DuplicateKey-to-AlreadyRecorded conversion is the race-safety
mechanism.  A caller is represented by its phase; the shared state is
the store together with the multiset of caller phases. -/

/-- The control point of one concurrent caller: before the duplicate
check, after a check that found nothing, or finished with an
outcome. -/
inductive Phase where
  | start
  | checked
  | done (o : Outcome)
deriving DecidableEq, Repr

/-- The caller finished with a Recorded outcome. -/
def isRecordedPhase : Phase → Bool
  | Phase.done (Outcome.Recorded _) => true
  | _ => false

/-- The caller finished with an AlreadyRecorded outcome. -/
def isAlreadyPhase : Phase → Bool
  | Phase.done (Outcome.AlreadyRecorded _) => true
  | _ => false

/-- The caller finished. -/
def isDonePhase : Phase → Bool
  | Phase.done _ => true
  | _ => false

/-- One interleaved step of some caller, all callers scanning the
same (student id, session id) pair.  A caller at the check either
finds a prior event and finishes with AlreadyRecorded, or finds none
and proceeds; a caller past the check performs the atomic
attempt_insert against the store as it is at that moment. -/
inductive ScanStep (sid : Nat) (sess : String) :
    Store × Multiset Phase → Store × Multiset Phase → Prop where
  | check_hit (store : Store) (rest : Multiset Phase) (e : AttendanceEvent) :
      find_event store sid sess = some e →
      ScanStep sid sess (store, Phase.start ::ₘ rest)
        (store, Phase.done (Outcome.AlreadyRecorded e.observedAt) ::ₘ rest)
  | check_miss (store : Store) (rest : Multiset Phase) :
      find_event store sid sess = none →
      ScanStep sid sess (store, Phase.start ::ₘ rest) (store, Phase.checked ::ₘ rest)
  | do_insert (store : Store) (rest : Multiset Phase) (ev : AttendanceEvent) :
      ev.studentId = sid → ev.sessionId = sess →
      ScanStep sid sess (store, Phase.checked ::ₘ rest)
        ((attempt_insert store ev).2, Phase.done (attempt_insert store ev).1 ::ₘ rest)

/-- Invariant of the interleaving model: the caller population is
constant, at most one event is stored for the pair, finished
Recorded callers are counted exactly by the stored events for the
pair, every finished caller ended in Recorded or AlreadyRecorded,
and an AlreadyRecorded finish certifies that the event is stored. -/
def ScanInv (sid : Nat) (sess : String) (n : Nat) (store : Store)
    (ms : Multiset Phase) : Prop :=
  Multiset.card ms = n ∧
  countEvents store sid sess ≤ 1 ∧
  Multiset.countP (fun ph => isRecordedPhase ph = true) ms = countEvents store sid sess ∧
  (∀ ph ∈ ms, isDonePhase ph = true →
    isRecordedPhase ph = true ∨ isAlreadyPhase ph = true) ∧
  (∀ ph ∈ ms, isAlreadyPhase ph = true → countEvents store sid sess = 1)

/-! ## Concrete inputs used by the witnesses -/

/-- A demonstration student, active, owning tag A1B2. -/
def demoStudent : Student := Student.mk 42 "Ada" true

/-- An inactive demonstration student, owning tag C3D4. -/
def demoInactive : Student := Student.mk 7 "Bob" false

/-- A demonstration Student Directory mapping tag A1B2 to the active
student and tag C3D4 to the inactive one. -/
def demoDir : Directory := fun t =>
  if t = "A1B2" then some demoStudent
  else if t = "C3D4" then some demoInactive
  else none

/-- A demonstration attendance event for student 42 in session S1. -/
def demoEv1 : AttendanceEvent := AttendanceEvent.mk 1 42 "S1" 100 "A1B2"

/-- A second prospective event for student 42 in session S1. -/
def demoEv2 : AttendanceEvent := AttendanceEvent.mk 2 42 "S1" 101 "A1B2"

/-- A demonstration sending primitive whose static bundle holds only
index.html. -/
def sendDemo : String → Except String String := fun p =>
  if p = "index.html" then Except.ok "INDEX" else Except.error "missing"

/-- An environment with no variables set. -/
def emptyEnv : String → Option String := fun _ => none

/-- An environment with both configuration variables set. -/
def fullEnv : String → Option String := fun k =>
  if k = "DATABASE_URL" then some "postgres://db"
  else if k = "SECRET_KEY" then some "s3cret" else none

/-! ## Basic lemmas about the store operations -/

/-- The membership test of eventMatches, as propositional equalities. -/
theorem eventMatches_iff (sid : Nat) (sess : String) (ev : AttendanceEvent) :
    eventMatches sid sess ev = true ↔ ev.studentId = sid ∧ ev.sessionId = sess := by
  simp [eventMatches]

/-- find_event misses exactly when no event for the pair is stored. -/
theorem find_event_none_iff (store : Store) (sid : Nat) (sess : String) :
    find_event store sid sess = none ↔ countEvents store sid sess = 0 := by
  simp [find_event, countEvents, List.find?_eq_none, List.length_eq_zero,
    List.filter_eq_nil_iff]

/-- A hit of find_event shows at least one stored event for the pair. -/
theorem countEvents_pos_of_find (store : Store) (sid : Nat) (sess : String)
    (e : AttendanceEvent) (h : find_event store sid sess = some e) :
    1 ≤ countEvents store sid sess := by
  have hmem : e ∈ store := List.mem_of_find?_eq_some h
  have hp : eventMatches sid sess e = true := List.find?_some h
  exact List.length_pos_of_mem (List.mem_filter.mpr ⟨hmem, hp⟩)

/-- Event counts add over store concatenation. -/
theorem countEvents_append (s1 s2 : Store) (sid : Nat) (sess : String) :
    countEvents (s1 ++ s2) sid sess = countEvents s1 sid sess + countEvents s2 sid sess := by
  simp [countEvents, List.filter_append]

/-- Event count of a one-event store. -/
theorem countEvents_singleton (ev : AttendanceEvent) (sid : Nat) (sess : String) :
    countEvents [ev] sid sess = if eventMatches sid sess ev = true then 1 else 0 := by
  by_cases h : eventMatches sid sess ev = true <;> simp [countEvents, List.filter, h]

/-- Searching a concatenation whose left part misses searches the
right part. -/
theorem find_event_append_of_none (s1 s2 : Store) (sid : Nat) (sess : String)
    (h : find_event s1 sid sess = none) :
    find_event (s1 ++ s2) sid sess = find_event s2 sid sess := by
  unfold find_event at h ⊢
  rw [List.find?_append, h]
  rfl

/-- Searching a one-event store that matches. -/
theorem find_event_singleton (ev : AttendanceEvent) (sid : Nat) (sess : String)
    (h : eventMatches sid sess ev = true) : find_event [ev] sid sess = some ev :=
  List.find?_cons_of_pos [] h

/-- attempt_insert when no event for the pair is stored: the insert
succeeds and the event is appended. -/
theorem attempt_insert_none (store : Store) (ev : AttendanceEvent)
    (h : find_event store ev.studentId ev.sessionId = none) :
    attempt_insert store ev = (Outcome.Recorded ev, store ++ [ev]) := by
  simp [attempt_insert, insert_event, h]

/-- attempt_insert when an event for the pair is stored: the store
raises DuplicateKey and the Recorder converts it to AlreadyRecorded,
leaving the store unchanged. -/
theorem attempt_insert_some (store : Store) (ev prior : AttendanceEvent)
    (h : find_event store ev.studentId ev.sessionId = some prior) :
    attempt_insert store ev = (Outcome.AlreadyRecorded prior.observedAt, store) := by
  simp [attempt_insert, insert_event, h]

/-- record_scan on a resolvable active tag and nonempty session when
the duplicate check hits. -/
theorem record_scan_found (dir : Directory) (store : Store) (tag sess : String)
    (t fid : Nat) (st : Student) (prior : AttendanceEvent)
    (hdir : dir tag = some st) (hact : st.active = true) (hsess : ¬ sess = "")
    (hfound : find_event store st.id sess = some prior) :
    record_scan dir store tag sess t fid = (Outcome.AlreadyRecorded prior.observedAt, store) := by
  simp [record_scan, hdir, hact, hsess, hfound]

/-- record_scan on a resolvable active tag and nonempty session when
the duplicate check misses. -/
theorem record_scan_not_found (dir : Directory) (store : Store) (tag sess : String)
    (t fid : Nat) (st : Student)
    (hdir : dir tag = some st) (hact : st.active = true) (hsess : ¬ sess = "")
    (hfound : find_event store st.id sess = none) :
    record_scan dir store tag sess t fid =
      attempt_insert store (AttendanceEvent.mk fid st.id sess t tag) := by
  simp [record_scan, hdir, hact, hsess, hfound]

/-- Shape of the store after one record_scan call: unchanged, or the
input validated, the duplicate check missed and exactly the one new
event was appended. -/
theorem record_scan_store_shape (dir : Directory) (store : Store) (tag sess : String)
    (t fid : Nat) :
    (record_scan dir store tag sess t fid).2 = store ∨
    ∃ st : Student, dir tag = some st ∧ st.active = true ∧ ¬ sess = "" ∧
      find_event store st.id sess = none ∧
      (record_scan dir store tag sess t fid).2 =
        store ++ [AttendanceEvent.mk fid st.id sess t tag] := by
  cases hdir : dir tag with
  | none => left; simp [record_scan, hdir]
  | some st =>
    by_cases hact : st.active = true
    · by_cases hsess : sess = ""
      · left; simp [record_scan, hdir, hact, hsess]
      · cases hfound : find_event store st.id sess with
        | some prior =>
          left; rw [record_scan_found dir store tag sess t fid st prior hdir hact hsess hfound]
        | none =>
          right
          refine ⟨st, rfl, hact, hsess, hfound, ?_⟩
          rw [record_scan_not_found dir store tag sess t fid st hdir hact hsess hfound]
          rw [attempt_insert_none store _ hfound]
    · left
      have hact2 : st.active = false := by
        cases h : st.active
        · rfl
        · exact absurd h hact
      simp [record_scan, hdir, hact2]

/-! ## Claims about record_scan (C3, C4, C5, C6) -/

/-- C3: for every tag the Student Directory maps to no student, and
for every tag whose owning student is inactive, record_scan returns
UnknownTag and leaves the Persistence Store unchanged. -/
theorem record_scan_unknown_tag (dir : Directory) (store : Store)
    (tag sess : String) (t fid : Nat)
    (h : dir tag = none ∨ ∃ st : Student, dir tag = some st ∧ st.active = false) :
    record_scan dir store tag sess t fid = (Outcome.UnknownTag, store) := by
  rcases h with h | ⟨st, hst, hact⟩
  · simp [record_scan, h]
  · simp [record_scan, hst, hact]

/-- Witness for C3: the unmapped demonstration tag ZZZZ is rejected
with UnknownTag and nothing is persisted, and so is the tag C3D4 of
the inactive student. -/
theorem record_scan_unknown_tag_witness :
    record_scan demoDir [] "ZZZZ" "S1" 5 9 = (Outcome.UnknownTag, []) ∧
    record_scan demoDir [] "C3D4" "S1" 5 9 = (Outcome.UnknownTag, []) :=
  ⟨record_scan_unknown_tag demoDir [] "ZZZZ" "S1" 5 9 (Or.inl (by decide)),
   record_scan_unknown_tag demoDir [] "C3D4" "S1" 5 9
     (Or.inr ⟨demoInactive, by decide, by decide⟩)⟩

/-- C4: when an AttendanceEvent already exists for the resolved
(student id, session id) pair, record_scan returns AlreadyRecorded
carrying the prior event timestamp, inserts nothing, and the outcome
is success-shaped rather than error-shaped. -/
theorem record_scan_already_recorded (dir : Directory) (store : Store)
    (tag sess : String) (t fid : Nat) (st : Student) (prior : AttendanceEvent)
    (hdir : dir tag = some st) (hact : st.active = true) (hsess : ¬ sess = "")
    (hfound : find_event store st.id sess = some prior) :
    record_scan dir store tag sess t fid =
      (Outcome.AlreadyRecorded prior.observedAt, store) ∧
    isErrorOutcome (record_scan dir store tag sess t fid).1 = false := by
  have h := record_scan_found dir store tag sess t fid st prior hdir hact hsess hfound
  exact ⟨h, by rw [h]; rfl⟩

/-- Witness for C4: with the demonstration event already stored, a
second scan of tag A1B2 in session S1 is an idempotent no-op. -/
theorem record_scan_already_recorded_witness :
    record_scan demoDir [demoEv1] "A1B2" "S1" 200 3 =
      (Outcome.AlreadyRecorded demoEv1.observedAt, [demoEv1]) ∧
    isErrorOutcome (record_scan demoDir [demoEv1] "A1B2" "S1" 200 3).1 = false :=
  record_scan_already_recorded demoDir [demoEv1] "A1B2" "S1" 200 3 demoStudent demoEv1
    (by decide) (by decide) (by decide) (by decide)

/-- C5: whenever insert_event raises DuplicateKey, the Recorder
converts it to AlreadyRecorded with the stored prior timestamp and an
unchanged store; the storage error is never surfaced. -/
theorem duplicate_key_converted (store : Store) (ev : AttendanceEvent)
    (hdup : insert_event store ev = Except.error StoreError.duplicateKey) :
    ∃ prior, find_event store ev.studentId ev.sessionId = some prior ∧
      attempt_insert store ev = (Outcome.AlreadyRecorded prior.observedAt, store) := by
  cases hfind : find_event store ev.studentId ev.sessionId with
  | none => simp [insert_event, hfind] at hdup
  | some prior => exact ⟨prior, rfl, attempt_insert_some store ev prior hfind⟩

/-- Witness for C5: inserting the second demonstration event for the
pair already holding the first raises DuplicateKey, and the Recorder
returns AlreadyRecorded. -/
theorem duplicate_key_converted_witness :
    ∃ prior, find_event [demoEv1] demoEv2.studentId demoEv2.sessionId = some prior ∧
      attempt_insert [demoEv1] demoEv2 =
        (Outcome.AlreadyRecorded prior.observedAt, [demoEv1]) :=
  duplicate_key_converted [demoEv1] demoEv2 rfl

/-- C6: a single record_scan call, on any input and any initial
store, either leaves the store exactly unchanged or appends exactly
one new event; earlier records are never altered, and the Student
Directory, a read-only parameter, is untouched. -/
theorem record_scan_zero_or_one_effect (dir : Directory) (store : Store)
    (tag sess : String) (t fid : Nat) :
    (record_scan dir store tag sess t fid).2 = store ∨
    ∃ ev, (record_scan dir store tag sess t fid).2 = store ++ [ev] := by
  rcases record_scan_store_shape dir store tag sess t fid with h | ⟨st, _, _, _, _, h⟩
  · exact Or.inl h
  · exact Or.inr ⟨_, h⟩

/-! ## Claims about api/index.py (C8, C9, C10) -/

/-- C8: api/index.py registers exactly four route groups, students,
NFC tag events, attendance records and faculty, each mounted under
its /api/<name> URL path. -/
theorem four_blueprints_registered :
    List.length registered_blueprints = 4 ∧
    List.map (fun b => (b.blueprint, b.mountPoint)) registered_blueprints =
      [("students_bp", "/api/students"), ("nfc_bp", "/api/nfc"),
       ("attendance_bp", "/api/attendance"), ("faculty_bp", "/api/faculty")] :=
  ⟨rfl, rfl⟩

/-- C9: the catch-all handler returns the named static file when
sending succeeds, and whenever the first send raises it falls back to
sending index.html, never propagating the first exception. -/
theorem serve_static_catch_all (ε : Type) (send : String → Except ε String)
    (path : String) :
    (∀ r, send path = Except.ok r → serve_static ε send path = Except.ok r) ∧
    (∀ e idx, send path = Except.error e → send "index.html" = Except.ok idx →
      serve_static ε send path = Except.ok idx) := by
  constructor
  · intro r h; simp [serve_static, h]
  · intro e idx h hidx; simp [serve_static, h, hidx]

/-- Witness for C9: a request for a file missing from the
demonstration bundle is answered with the index page. -/
theorem serve_static_catch_all_witness :
    serve_static String sendDemo "app.js" = Except.ok "INDEX" :=
  (serve_static_catch_all String sendDemo "app.js").2 "missing" "INDEX" rfl rfl

/-- C10: with DATABASE_URL unset the database URI falls back to the
bundled sqlite literal, with SECRET_KEY unset the secret falls back
to the development literal, and a set variable is used verbatim. -/
theorem config_env_defaults (environ : String → Option String) :
    (environ "DATABASE_URL" = none →
      database_uri_config environ = "sqlite:///nfc_attendance.db") ∧
    (∀ v, environ "DATABASE_URL" = some v → database_uri_config environ = v) ∧
    (environ "SECRET_KEY" = none →
      secret_key_config environ = "dev-secret-key-change-in-production") ∧
    (∀ v, environ "SECRET_KEY" = some v → secret_key_config environ = v) := by
  refine ⟨?_, ?_, ?_, ?_⟩
  · intro h; simp [database_uri_config, getenv, h]
  · intro v h; simp [database_uri_config, getenv, h]
  · intro h; simp [secret_key_config, getenv, h]
  · intro v h; simp [secret_key_config, getenv, h]

/-- Witness for C10: the empty environment yields both fallback
literals and the populated one yields its values verbatim. -/
theorem config_env_defaults_witness :
    database_uri_config emptyEnv = "sqlite:///nfc_attendance.db" ∧
    secret_key_config emptyEnv = "dev-secret-key-change-in-production" ∧
    database_uri_config fullEnv = "postgres://db" ∧
    secret_key_config fullEnv = "s3cret" :=
  ⟨(config_env_defaults emptyEnv).1 rfl,
   (config_env_defaults emptyEnv).2.2.1 rfl,
   (config_env_defaults fullEnv).2.1 "postgres://db" rfl,
   (config_env_defaults fullEnv).2.2.2 "s3cret" rfl⟩

/-! ## Idempotence and the store invariant (C1, C2) -/

/-- C1: for a valid (tag, session) pair, calling record_scan twice
with the same tag and session leaves exactly one stored
AttendanceEvent for the resolved pair, never two.  The initial store
is any state satisfying the at-most-one invariant for the pair. -/
theorem record_scan_idempotent (dir : Directory) (store : Store)
    (tag sess : String) (t1 fid1 t2 fid2 : Nat) (st : Student)
    (hdir : dir tag = some st) (hact : st.active = true) (hsess : ¬ sess = "")
    (hinv : countEvents store st.id sess ≤ 1) :
    countEvents
      (record_scan dir (record_scan dir store tag sess t1 fid1).2 tag sess t2 fid2).2
      st.id sess = 1 := by
  cases hfind : find_event store st.id sess with
  | some prior =>
    have h1 : (record_scan dir store tag sess t1 fid1).2 = store := by
      rw [record_scan_found dir store tag sess t1 fid1 st prior hdir hact hsess hfind]
    rw [h1,
      record_scan_found dir store tag sess t2 fid2 st prior hdir hact hsess hfind]
    exact le_antisymm hinv (countEvents_pos_of_find store st.id sess prior hfind)
  | none =>
    have hc0 : countEvents store st.id sess = 0 :=
      (find_event_none_iff store st.id sess).mp hfind
    have hm : eventMatches st.id sess (AttendanceEvent.mk fid1 st.id sess t1 tag) = true := by
      simp [eventMatches]
    have h1 : (record_scan dir store tag sess t1 fid1).2 =
        store ++ [AttendanceEvent.mk fid1 st.id sess t1 tag] := by
      rw [record_scan_not_found dir store tag sess t1 fid1 st hdir hact hsess hfind,
        attempt_insert_none store _ hfind]
    have hf1 : find_event (store ++ [AttendanceEvent.mk fid1 st.id sess t1 tag])
        st.id sess = some (AttendanceEvent.mk fid1 st.id sess t1 tag) := by
      rw [find_event_append_of_none store _ st.id sess hfind]
      exact find_event_singleton _ st.id sess hm
    rw [h1, record_scan_found dir _ tag sess t2 fid2 st _ hdir hact hsess hf1,
      countEvents_append, hc0, countEvents_singleton, if_pos hm]

/-- Witness for C1: two identical scans of tag A1B2 in session S1
starting from the empty store leave one stored event. -/
theorem record_scan_idempotent_witness :
    countEvents
      (record_scan demoDir (record_scan demoDir [] "A1B2" "S1" 100 1).2
        "A1B2" "S1" 101 2).2 demoStudent.id "S1" = 1 :=
  record_scan_idempotent demoDir [] "A1B2" "S1" 100 1 101 2 demoStudent
    (by decide) (by decide) (by decide) (by decide)

/-- C2: every record_scan call preserves the store invariant that at
most one AttendanceEvent exists per (student id, session id) pair,
and it never mutates or drops an existing event: the new store is the
old one with at most a suffix appended. -/
theorem record_scan_preserves_invariant (dir : Directory) (store : Store)
    (tag sess : String) (t fid : Nat)
    (hinv : ∀ sid s, countEvents store sid s ≤ 1) :
    (∀ sid s, countEvents (record_scan dir store tag sess t fid).2 sid s ≤ 1) ∧
    (∃ tail, (record_scan dir store tag sess t fid).2 = store ++ tail) := by
  rcases record_scan_store_shape dir store tag sess t fid with h | ⟨st, _, _, _, hfind, h⟩
  · refine ⟨fun sid s => ?_, [], by rw [h, List.append_nil]⟩
    rw [h]
    exact hinv sid s
  · refine ⟨fun sid s => ?_, [AttendanceEvent.mk fid st.id sess t tag], h⟩
    rw [h, countEvents_append, countEvents_singleton]
    by_cases hm : eventMatches sid s (AttendanceEvent.mk fid st.id sess t tag) = true
    · obtain ⟨h1, h2⟩ := (eventMatches_iff sid s _).mp hm
      have hc0 : countEvents store st.id sess = 0 :=
        (find_event_none_iff store st.id sess).mp hfind
      have : countEvents store sid s = 0 := by
        rw [← h1, ← h2]
        exact hc0
      rw [this, if_pos hm]
    · have hm2 : eventMatches sid s (AttendanceEvent.mk fid st.id sess t tag) = false := by
        cases hb : eventMatches sid s (AttendanceEvent.mk fid st.id sess t tag)
        · rfl
        · exact absurd hb hm
      rw [if_neg hm]
      simpa using hinv sid s

/-- Witness for C2: one scan of tag A1B2 in session S1 from the
empty store preserves the at-most-one invariant and only appends. -/
theorem record_scan_preserves_invariant_witness :
    (∀ sid s, countEvents (record_scan demoDir [] "A1B2" "S1" 100 1).2 sid s ≤ 1) ∧
    (∃ tail, (record_scan demoDir [] "A1B2" "S1" 100 1).2 = [] ++ tail) :=
  record_scan_preserves_invariant demoDir [] "A1B2" "S1" 100 1
    (fun sid s => by simp [countEvents])

/-! ## Lemmas for the interleaving model -/

/-- A caller finished with Recorded did not finish with
AlreadyRecorded. -/
theorem isAlready_eq_false_of_isRecorded (ph : Phase)
    (hr : isRecordedPhase ph = true) : isAlreadyPhase ph = false := by
  cases ph with
  | start => rfl
  | checked => rfl
  | done o =>
    cases o with
    | Recorded ev => rfl
    | AlreadyRecorded ts => simp [isRecordedPhase] at hr
    | UnknownTag => rfl
    | InvalidSession => rfl

/-- A caller finished with AlreadyRecorded did not finish with
Recorded. -/
theorem isRecorded_eq_false_of_isAlready (ph : Phase)
    (ha : isAlreadyPhase ph = true) : isRecordedPhase ph = false := by
  cases ph with
  | start => rfl
  | checked => rfl
  | done o =>
    cases o with
    | Recorded ev => simp [isAlreadyPhase] at ha
    | AlreadyRecorded ts => rfl
    | UnknownTag => rfl
    | InvalidSession => rfl

/-- Every interleaved step preserves the invariant of the model. -/
theorem scanInv_step (sid : Nat) (sess : String) (n : Nat)
    {s1 s2 : Store × Multiset Phase} (hstep : ScanStep sid sess s1 s2)
    (hinv : ScanInv sid sess n s1.1 s1.2) : ScanInv sid sess n s2.1 s2.2 := by
  cases hstep with
  | check_hit store rest e hfind =>
    obtain ⟨hcard, hle, hcount, hshape, halr⟩ := hinv
    dsimp only at hcard hle hcount hshape halr ⊢
    have hone : countEvents store sid sess = 1 :=
      le_antisymm hle (countEvents_pos_of_find store sid sess e hfind)
    refine ⟨?_, hle, ?_, ?_, ?_⟩
    · rw [Multiset.card_cons] at hcard ⊢
      exact hcard
    · rw [Multiset.countP_cons] at hcount ⊢
      simpa [isRecordedPhase] using hcount
    · intro ph hmem hd
      rcases Multiset.mem_cons.mp hmem with h | h
      · right; rw [h]; rfl
      · exact hshape ph (Multiset.mem_cons_of_mem h) hd
    · intro ph _ _
      exact hone
  | check_miss store rest hfind =>
    obtain ⟨hcard, hle, hcount, hshape, halr⟩ := hinv
    dsimp only at hcard hle hcount hshape halr ⊢
    refine ⟨?_, hle, ?_, ?_, ?_⟩
    · rw [Multiset.card_cons] at hcard ⊢
      exact hcard
    · rw [Multiset.countP_cons] at hcount ⊢
      simpa [isRecordedPhase] using hcount
    · intro ph hmem hd
      rcases Multiset.mem_cons.mp hmem with h | h
      · rw [h] at hd
        simp [isDonePhase] at hd
      · exact hshape ph (Multiset.mem_cons_of_mem h) hd
    · intro ph hmem ha
      rcases Multiset.mem_cons.mp hmem with h | h
      · rw [h] at ha
        simp [isAlreadyPhase] at ha
      · exact halr ph (Multiset.mem_cons_of_mem h) ha
  | do_insert store rest ev hsid hsess2 =>
    obtain ⟨hcard, hle, hcount, hshape, halr⟩ := hinv
    dsimp only at hcard hle hcount hshape halr ⊢
    cases hfind : find_event store sid sess with
    | none =>
      have hfind2 : find_event store ev.studentId ev.sessionId = none := by
        rw [hsid, hsess2]; exact hfind
      rw [attempt_insert_none store ev hfind2]
      dsimp only
      have hc0 : countEvents store sid sess = 0 :=
        (find_event_none_iff store sid sess).mp hfind
      have hm : eventMatches sid sess ev = true :=
        (eventMatches_iff sid sess ev).mpr ⟨hsid, hsess2⟩
      have hc1 : countEvents (store ++ [ev]) sid sess = 1 := by
        rw [countEvents_append, hc0, countEvents_singleton, if_pos hm]
      have hrest0 : Multiset.countP (fun ph => isRecordedPhase ph = true) rest = 0 := by
        rw [Multiset.countP_cons] at hcount
        simp [isRecordedPhase, hc0] at hcount
        exact hcount
      refine ⟨?_, ?_, ?_, ?_, ?_⟩
      · rw [Multiset.card_cons] at hcard ⊢
        exact hcard
      · rw [hc1]
      · rw [Multiset.countP_cons, hrest0, hc1]
        simp [isRecordedPhase]
      · intro ph hmem hd
        rcases Multiset.mem_cons.mp hmem with h | h
        · left; rw [h]; rfl
        · exact hshape ph (Multiset.mem_cons_of_mem h) hd
      · intro ph _ _
        exact hc1
    | some prior =>
      have hfind2 : find_event store ev.studentId ev.sessionId = some prior := by
        rw [hsid, hsess2]; exact hfind
      rw [attempt_insert_some store ev prior hfind2]
      dsimp only
      have hone : countEvents store sid sess = 1 :=
        le_antisymm hle (countEvents_pos_of_find store sid sess prior hfind)
      refine ⟨?_, hle, ?_, ?_, ?_⟩
      · rw [Multiset.card_cons] at hcard ⊢
        exact hcard
      · rw [Multiset.countP_cons] at hcount ⊢
        simpa [isRecordedPhase] using hcount
      · intro ph hmem hd
        rcases Multiset.mem_cons.mp hmem with h | h
        · right; rw [h]; rfl
        · exact hshape ph (Multiset.mem_cons_of_mem h) hd
      · intro ph _ _
        exact hone

/-- The invariant holds in every state reachable from a state that
satisfies it. -/
theorem scanInv_reachable (sid : Nat) (sess : String) (n : Nat)
    (s0 s : Store × Multiset Phase)
    (h : Relation.ReflTransGen (ScanStep sid sess) s0 s)
    (hinv : ScanInv sid sess n s0.1 s0.2) : ScanInv sid sess n s.1 s.2 := by
  induction h with
  | refl => exact hinv
  | tail hsteps hstep ih => exact scanInv_step sid sess n hstep ih

/-- In a population of finished callers each of which ended in
Recorded or AlreadyRecorded, the two outcome counts add up to the
population size. -/
theorem countP_done_split (ms : Multiset Phase) :
    (∀ ph ∈ ms, isDonePhase ph = true →
      isRecordedPhase ph = true ∨ isAlreadyPhase ph = true) →
    (∀ ph ∈ ms, isDonePhase ph = true) →
    Multiset.countP (fun ph => isRecordedPhase ph = true) ms +
      Multiset.countP (fun ph => isAlreadyPhase ph = true) ms = Multiset.card ms := by
  induction ms using Multiset.induction_on with
  | empty => intro _ _; simp
  | cons a s ih =>
    intro hshape hdone
    have ihs := ih (fun ph h hd => hshape ph (Multiset.mem_cons_of_mem h) hd)
      (fun ph h => hdone ph (Multiset.mem_cons_of_mem h))
    rw [Multiset.countP_cons, Multiset.countP_cons, Multiset.card_cons]
    rcases hshape a (Multiset.mem_cons_self a s) (hdone a (Multiset.mem_cons_self a s))
      with h | h
    · have hfa : isAlreadyPhase a = false := isAlready_eq_false_of_isRecorded a h
      simp [h, hfa]
      omega
    · have hfr : isRecordedPhase a = false := isRecorded_eq_false_of_isAlready a h
      simp [h, hfr]
      omega

/-- C7: starting from a store with no event for the pair, any
complete interleaving of N concurrent record_scan callers for the
same (student id, session id) pair, N at least 1, finishes with
exactly one Recorded outcome, N minus 1 AlreadyRecorded outcomes,
and exactly one stored AttendanceEvent for the pair. -/
theorem concurrent_scans (sid : Nat) (sess : String) (s0 : Store) (n : Nat)
    (store : Store) (ms : Multiset Phase)
    (hn : 1 ≤ n) (h0 : countEvents s0 sid sess = 0)
    (hreach : Relation.ReflTransGen (ScanStep sid sess)
      (s0, Multiset.replicate n Phase.start) (store, ms))
    (hdone : ∀ ph ∈ ms, isDonePhase ph = true) :
    Multiset.countP (fun ph => isRecordedPhase ph = true) ms = 1 ∧
    Multiset.countP (fun ph => isAlreadyPhase ph = true) ms = n - 1 ∧
    countEvents store sid sess = 1 := by
  have hinv0 : ScanInv sid sess n s0 (Multiset.replicate n Phase.start) := by
    refine ⟨by simp, by omega, ?_, ?_, ?_⟩
    · rw [h0]
      refine Multiset.countP_eq_zero.mpr ?_
      intro a ha
      rw [Multiset.eq_of_mem_replicate ha]
      simp [isRecordedPhase]
    · intro ph hm hd
      rw [Multiset.eq_of_mem_replicate hm] at hd
      simp [isDonePhase] at hd
    · intro ph hm ha
      rw [Multiset.eq_of_mem_replicate hm] at ha
      simp [isAlreadyPhase] at ha
  have hinv := scanInv_reachable sid sess n _ _ hreach hinv0
  obtain ⟨hcard, hle, hcount, hshape, halr⟩ := hinv
  dsimp only at hcard hle hcount hshape halr
  have hsum := countP_done_split ms hshape hdone
  cases hk : countEvents store sid sess with
  | zero =>
    exfalso
    have hrec0 : Multiset.countP (fun ph => isRecordedPhase ph = true) ms = 0 := by
      rw [hcount, hk]
    have hpos : 0 < Multiset.countP (fun ph => isAlreadyPhase ph = true) ms := by
      omega
    obtain ⟨ph, hm, hp⟩ := Multiset.countP_pos.mp hpos
    have := halr ph hm hp
    omega
  | succ k =>
    have h1 : countEvents store sid sess = 1 := by omega
    have hrec1 : Multiset.countP (fun ph => isRecordedPhase ph = true) ms = 1 := by
      rw [hcount, h1]
    refine ⟨hrec1, by omega, by omega⟩

/-- Witness for C7: an explicit racing interleaving of two callers
scanning the pair (42, S1) from the empty store.  Both callers pass
the duplicate check before either inserts; the first insert succeeds
with Recorded, the second hits the uniqueness constraint and
finishes AlreadyRecorded, leaving one stored event. -/
theorem concurrent_scans_witness :
    Multiset.countP (fun ph => isRecordedPhase ph = true)
      (Phase.done (Outcome.AlreadyRecorded 100) ::ₘ
        Phase.done (Outcome.Recorded demoEv1) ::ₘ 0) = 1 ∧
    Multiset.countP (fun ph => isAlreadyPhase ph = true)
      (Phase.done (Outcome.AlreadyRecorded 100) ::ₘ
        Phase.done (Outcome.Recorded demoEv1) ::ₘ 0) = 2 - 1 ∧
    countEvents [demoEv1] 42 "S1" = 1 := by
  have h1 : ScanStep 42 "S1" ([], Multiset.replicate 2 Phase.start)
      ([], Phase.checked ::ₘ Phase.start ::ₘ 0) := by
    have hrep : Multiset.replicate 2 Phase.start =
        Phase.start ::ₘ Phase.start ::ₘ 0 := rfl
    rw [hrep]
    exact ScanStep.check_miss [] (Phase.start ::ₘ 0) rfl
  have h2 : ScanStep 42 "S1" ([], Phase.checked ::ₘ Phase.start ::ₘ 0)
      ([], Phase.checked ::ₘ Phase.checked ::ₘ 0) := by
    have heq : (Phase.checked ::ₘ Phase.start ::ₘ (0 : Multiset Phase)) =
        Phase.start ::ₘ Phase.checked ::ₘ 0 := Multiset.cons_swap _ _ _
    rw [heq]
    exact ScanStep.check_miss [] (Phase.checked ::ₘ 0) rfl
  have h3 : ScanStep 42 "S1" ([], Phase.checked ::ₘ Phase.checked ::ₘ 0)
      ([demoEv1], Phase.done (Outcome.Recorded demoEv1) ::ₘ Phase.checked ::ₘ 0) :=
    ScanStep.do_insert [] (Phase.checked ::ₘ 0) demoEv1 rfl rfl
  have h4 : ScanStep 42 "S1"
      ([demoEv1], Phase.done (Outcome.Recorded demoEv1) ::ₘ Phase.checked ::ₘ 0)
      ([demoEv1], Phase.done (Outcome.AlreadyRecorded 100) ::ₘ
        Phase.done (Outcome.Recorded demoEv1) ::ₘ 0) := by
    have heq : (Phase.done (Outcome.Recorded demoEv1) ::ₘ Phase.checked ::ₘ
        (0 : Multiset Phase)) =
        Phase.checked ::ₘ Phase.done (Outcome.Recorded demoEv1) ::ₘ 0 :=
      Multiset.cons_swap _ _ _
    rw [heq]
    exact ScanStep.do_insert [demoEv1]
      (Phase.done (Outcome.Recorded demoEv1) ::ₘ 0) demoEv2 rfl rfl
  refine concurrent_scans 42 "S1" [] 2 [demoEv1]
    (Phase.done (Outcome.AlreadyRecorded 100) ::ₘ
      Phase.done (Outcome.Recorded demoEv1) ::ₘ 0)
    (by decide) (by decide) ?_ ?_
  · exact Relation.ReflTransGen.head h1 (Relation.ReflTransGen.head h2
      (Relation.ReflTransGen.head h3 (Relation.ReflTransGen.single h4)))
  · intro ph hm
    rcases Multiset.mem_cons.mp hm with h | h
    · rw [h]; rfl
    · rcases Multiset.mem_cons.mp h with h5 | h5
      · rw [h5]; rfl
      · exact absurd h5 (Multiset.not_mem_zero ph)
